import Mathlib

/-!
Verification of the parsing and dispatch engine of the `flag` C library
(`flag.c`: `parse_flags`, `parse_flag_helper`, `parse_subcommand_flag`,
`find_subcommand`, `is_valid_integer`, `validate_integer`).

The embedding is a shallow one:

* caller-owned value cells become indices into an explicit store
  (`Store := List Value`); writing through a flag's `value` pointer becomes
  `List.set`;
* `exit(EXIT_SUCCESS)` / `exit(EXIT_FAILURE)` become explicit result
  constructors carrying the store at the moment of termination and the
  diagnostic message written to stderr;
* dereferencing `argv[argc]` (the terminating NULL pointer) inside a
  conversion becomes the distinguished result `ub` (undefined behavior);
* machine integers are `Int`/`Nat` with the LP64 widths of the reference
  platform (int/unsigned 32 bits, long/size_t/intmax/uintmax/uintptr 64
  bits); the cast `(int)long_value` is modelled by explicit wrapping;
* the floating-point kinds `FLAG_FLOAT`/`FLAG_DOUBLE` are outside the
  embedded fragment (no claim concerns them); all other members of the
  `flag_type` enum are embedded.

`argv` is a `List String` that includes the program name at position 0,
so `argc = argv.length` and `argv[argc]` (NULL) corresponds to `List.get?`
returning `none`.
-/

namespace FlagLib

/-- A value held in a caller-owned cell: the possible targets of the
`void* value` pointer of a flag (booleans, signed and unsigned integers,
strings). -/
inductive Value where
  | vBool (b : Bool)
  | vInt (n : Int)
  | vNat (n : Nat)
  | vStr (s : String)
deriving DecidableEq, Repr

/-- The caller's memory: cell `i` of the store is the target of the
`value` pointer of any flag whose `value` field is `i`. -/
abbrev Store := List Value

/-- The `flag_type` enum (declaration order of the C enum), restricted to
the embedded fragment: `FLAG_FLOAT` and `FLAG_DOUBLE` are omitted. -/
inductive flag_type where
  | FLAG_BOOL
  | FLAG_INT
  | FLAG_SIZE_T
  | FLAG_INT8
  | FLAG_INT16
  | FLAG_INT32
  | FLAG_INT64
  | FLAG_UINT
  | FLAG_UINT8
  | FLAG_UINT16
  | FLAG_UINT32
  | FLAG_UINT64
  | FLAG_UINTPTR
  | FLAG_STRING
deriving DecidableEq, Repr

/-- The C `struct flag_validator`: a predicate over the converted value plus an
optional error message (`error_message == NULL` becomes `none`). -/
structure flag_validator where
  validator : Value → Bool
  error_message : Option String

/-- The C `struct flag`.  The `void* value` pointer becomes a store index; a
`flag_validator*` that is NULL, or whose `validator` member is NULL,
becomes `none` (the C code guards on both before calling). -/
structure flag where
  name : String
  value : Nat
  type : flag_type
  description : String
  required : Bool
  flag_validator : Option flag_validator

/-- The C `struct subcommand`.  The callback is not part of the parsing engine
(it is invoked separately by `subcommand_call`) and is omitted. -/
structure subcommand where
  name : String
  description : String
  flags : List flag

/-- The C `struct flag_ctx`: the global flag table and the registered
subcommands. -/
structure flag_ctx where
  flags : List flag
  subcommands : List subcommand

/-! ### LP64 width constants -/

def LONG_MAX : Int := 2 ^ 63 - 1
def LONG_MIN : Int := -(2 ^ 63)
def INT8_MAX : Int := 127
def INT8_MIN : Int := -128
def INT16_MAX : Int := 32767
def INT16_MIN : Int := -32768
def INT32_MAX : Int := 2 ^ 31 - 1
def INT32_MIN : Int := -(2 ^ 31)
def INT64_MAX : Int := 2 ^ 63 - 1
def INT64_MIN : Int := -(2 ^ 63)
def UINT8_MAX : Nat := 255
def UINT16_MAX : Nat := 65535
def UINT32_MAX : Nat := 2 ^ 32 - 1
def UINT_MAX : Nat := 2 ^ 32 - 1
def UINT64_MAX : Nat := 2 ^ 64 - 1
def UINTPTR_MAX : Nat := 2 ^ 64 - 1

/-! ### The C standard library number parsers (base 10)

`strtol`/`strtoimax`/`strtoul`/`strtoumax` read an optional run of
whitespace, an optional sign and a longest run of digits; with no digit
they return 0 without error.  Signed parses clamp to the type's range and
report `ERANGE`; unsigned parses reject magnitudes above the maximum with
`ERANGE` and otherwise negate modulo 2^64 when the sign was `-`.  Each
model function returns the converted value paired with the `ERANGE` flag.
-/

/-- The subject sequence of a base-10 `strto*` call: `none` when no digit
is found, otherwise the sign and the magnitude of the digit run. -/
def intSubject (s : String) : Option (Bool × Nat) :=
  let cs := s.data.dropWhile Char.isWhitespace
  let (neg, cs') : Bool × List Char :=
    match cs with
    | '-' :: t => (true, t)
    | '+' :: t => (false, t)
    | t => (false, t)
  let ds := cs'.takeWhile Char.isDigit
  if ds.isEmpty then none
  else some (neg, ds.foldl (fun a c => a * 10 + (c.toNat - 48)) 0)

/-- Model of `strtol(s, NULL, 10)` on LP64: result clamped to `long`, paired with
the `ERANGE` indicator. -/
def strtol (s : String) : Int × Bool :=
  match intSubject s with
  | none => (0, false)
  | some (neg, m) =>
    let v : Int := if neg then -(m : Int) else (m : Int)
    if v < LONG_MIN then (LONG_MIN, true)
    else if v > LONG_MAX then (LONG_MAX, true)
    else (v, false)

/-- Model of `strtoimax(s, NULL, 10)`: on LP64 `intmax_t` coincides with `long`. -/
def strtoimax (s : String) : Int × Bool := strtol s

/-- Model of `strtoul(s, NULL, 10)` on LP64: `ERANGE` when the magnitude exceeds
`ULONG_MAX`; a leading minus negates the value modulo 2^64. -/
def strtoul (s : String) : Nat × Bool :=
  match intSubject s with
  | none => (0, false)
  | some (neg, m) =>
    if m > UINT64_MAX then (UINT64_MAX, true)
    else if neg then (((2 ^ 64 : Nat) - m % 2 ^ 64) % 2 ^ 64, false)
    else (m, false)

/-- Model of `strtoumax(s, NULL, 10)`: on LP64 `uintmax_t` coincides with
`unsigned long`. -/
def strtoumax (s : String) : Nat × Bool := strtoul s

/-- The conversion `(int)long_value` on LP64: reduce modulo 2^32 into
the signed 32-bit range. -/
def intCast32 (v : Int) : Int :=
  let m := v % (2 ^ 32 : Int)
  if m < 2 ^ 31 then m else m - 2 ^ 32

/-- ASCII `tolower`, as used by `strcasecmp`. -/
def charLower (c : Char) : Char :=
  if c.toNat ≥ 65 && c.toNat ≤ 90 then Char.ofNat (c.toNat + 32) else c

/-- Model of `strcasecmp(a, b) == 0`: ASCII case-insensitive string equality. -/
def strcaseEq (a b : String) : Bool :=
  a.data.map charLower == b.data.map charLower

/-- The C `is_valid_integer`: non-NULL, nonempty, an optional sign followed by a
nonempty run of digits and nothing else.  The argument is an
`Option String` because the C caller passes `argv[i]` where `i` may equal
`argc` (then the argument is the NULL terminator and the function returns
false via its NULL check). -/
def is_valid_integer : Option String → Bool
  | none => false
  | some s =>
    match s.data with
    | [] => false
    | c :: rest =>
      let body := if c = '-' || c = '+' then rest else c :: rest
      !body.isEmpty && body.all Char.isDigit

/-- The C `validate_integer`: returns the fatal diagnostic when
`is_valid_integer` rejects the token, `none` when the token is accepted
(the C function prints and calls `exit(EXIT_FAILURE)` in the first case
and returns in the second). -/
def validate_integer (name : String) (tok : Option String) : Option String :=
  if is_valid_integer tok then none
  else some ("Error: Invalid integer value for flag " ++ name)

/-- Result of one type conversion: a converted value, a fatal diagnostic
(process exits with failure status), or undefined behavior (a NULL
`argv[argc]` was dereferenced). -/
inductive CvtRes where
  | ok (v : Value)
  | fatal (msg : String)
  | ub
deriving Repr

/-- The `switch (flags[j].type)` inside `parse_flag_helper` (the global,
phase-1 conversion): `tok` is `argv[i]` after `i++`, which is `none` when
the flag name was the last token (`i == argc`, `argv[argc]` is NULL). -/
def global_flag_convert (fl : flag) (tok : Option String) : CvtRes :=
  match fl.type with
  | .FLAG_BOOL =>
    match tok with
    | none => .ok (.vBool true)
    | some t =>
      if strcaseEq t "true" then .ok (.vBool true)
      else if strcaseEq t "false" then .ok (.vBool false)
      else .fatal ("Error: Invalid boolean value for flag " ++ fl.name)
  | .FLAG_INT =>
    match validate_integer fl.name tok with
    | some m => .fatal m
    | none =>
      let (v, er) := strtol (tok.getD "")
      if er then .fatal ("Error: Integer overflow for flag " ++ fl.name)
      else .ok (.vInt (intCast32 v))
  | .FLAG_SIZE_T =>
    match validate_integer fl.name tok with
    | some m => .fatal m
    | none =>
      let (v, er) := strtoul (tok.getD "")
      if er then .fatal ("Error: Size_t overflow for flag " ++ fl.name)
      else .ok (.vNat v)
  | .FLAG_INT8 =>
    match validate_integer fl.name tok with
    | some m => .fatal m
    | none =>
      let (v, er) := strtoimax (tok.getD "")
      if er || v < INT8_MIN || v > INT8_MAX then
        .fatal ("Error: Int8 overflow or underflow for flag " ++ fl.name)
      else .ok (.vInt v)
  | .FLAG_INT16 =>
    match validate_integer fl.name tok with
    | some m => .fatal m
    | none =>
      let (v, er) := strtoimax (tok.getD "")
      if er || v < INT16_MIN || v > INT16_MAX then
        .fatal ("Error: Int16 overflow or underflow for flag " ++ fl.name)
      else .ok (.vInt v)
  | .FLAG_INT32 =>
    match validate_integer fl.name tok with
    | some m => .fatal m
    | none =>
      let (v, er) := strtoimax (tok.getD "")
      if er || v < INT32_MIN || v > INT32_MAX then
        .fatal ("Error: Int32 overflow or underflow for flag " ++ fl.name)
      else .ok (.vInt v)
  | .FLAG_INT64 =>
    match validate_integer fl.name tok with
    | some m => .fatal m
    | none =>
      let (v, er) := strtoimax (tok.getD "")
      if er || v < INT64_MIN || v > INT64_MAX then
        .fatal ("Error: Int64 overflow or underflow for flag " ++ fl.name)
      else .ok (.vInt v)
  | .FLAG_UINT =>
    match validate_integer fl.name tok with
    | some m => .fatal m
    | none =>
      let (v, er) := strtoumax (tok.getD "")
      if er || v > UINT_MAX then
        .fatal ("Error: Uint overflow for flag " ++ fl.name)
      else .ok (.vNat v)
  | .FLAG_UINT8 =>
    match validate_integer fl.name tok with
    | some m => .fatal m
    | none =>
      let (v, er) := strtoumax (tok.getD "")
      if er || v > UINT8_MAX then
        .fatal ("Error: Uint8 overflow for flag " ++ fl.name)
      else .ok (.vNat v)
  | .FLAG_UINT16 =>
    match validate_integer fl.name tok with
    | some m => .fatal m
    | none =>
      let (v, er) := strtoumax (tok.getD "")
      if er || v > UINT16_MAX then
        .fatal ("Error: Uint16 overflow for flag " ++ fl.name)
      else .ok (.vNat v)
  | .FLAG_UINT32 =>
    match validate_integer fl.name tok with
    | some m => .fatal m
    | none =>
      let (v, er) := strtoumax (tok.getD "")
      if er || v > UINT32_MAX then
        .fatal ("Error: Uint32 overflow for flag " ++ fl.name)
      else .ok (.vNat v)
  | .FLAG_UINT64 =>
    match validate_integer fl.name tok with
    | some m => .fatal m
    | none =>
      let (v, er) := strtoumax (tok.getD "")
      if er || v > UINT64_MAX then
        .fatal ("Error: Uint64 overflow for flag " ++ fl.name)
      else .ok (.vNat v)
  | .FLAG_UINTPTR =>
    match validate_integer fl.name tok with
    | some m => .fatal m
    | none =>
      let (v, er) := strtoumax (tok.getD "")
      if er || v > UINTPTR_MAX then
        .fatal ("Error: uintptr_t overflow for flag " ++ fl.name)
      else .ok (.vNat v)
  | .FLAG_STRING =>
    match tok with
    | none => .ub
    | some t => .ok (.vStr t)

/-- The C `parse_subcommand_flag` (the phase-2 conversion): no syntactic
pre-validation of integer tokens, a non-boolean token for a bool flag is
treated as `true`, and `arg` is dereferenced by every branch, so a NULL
argument (`argv[argc]`) is undefined behavior for every kind. -/
def parse_subcommand_flag (fl : flag) (arg : Option String) : CvtRes :=
  match arg with
  | none => .ub
  | some a =>
    match fl.type with
    | .FLAG_BOOL =>
      if strcaseEq a "true" then .ok (.vBool true)
      else if strcaseEq a "false" then .ok (.vBool false)
      else .ok (.vBool true)
    | .FLAG_INT =>
      let (v, er) := strtol a
      if er then .fatal ("Error: Integer overflow for flag " ++ fl.name)
      else .ok (.vInt (intCast32 v))
    | .FLAG_SIZE_T =>
      let (v, er) := strtoul a
      if er then .fatal ("Error: Size_t overflow for flag " ++ fl.name)
      else .ok (.vNat v)
    | .FLAG_INT8 =>
      let (v, er) := strtoimax a
      if er || v < INT8_MIN || v > INT8_MAX then
        .fatal ("Error: Int8 overflow or underflow for flag " ++ fl.name)
      else .ok (.vInt v)
    | .FLAG_INT16 =>
      let (v, er) := strtoimax a
      if er || v < INT16_MIN || v > INT16_MAX then
        .fatal ("Error: Int16 overflow or underflow for flag " ++ fl.name)
      else .ok (.vInt v)
    | .FLAG_INT32 =>
      let (v, er) := strtoimax a
      if er || v < INT32_MIN || v > INT32_MAX then
        .fatal ("Error: Int32 overflow or underflow for flag " ++ fl.name)
      else .ok (.vInt v)
    | .FLAG_INT64 =>
      let (v, er) := strtoimax a
      if er || v < INT64_MIN || v > INT64_MAX then
        .fatal ("Error: Int64 overflow or underflow for flag " ++ fl.name)
      else .ok (.vInt v)
    | .FLAG_UINT =>
      let (v, er) := strtoumax a
      if er || v > UINT_MAX then
        .fatal ("Error: Uint overflow for flag " ++ fl.name)
      else .ok (.vNat v)
    | .FLAG_UINT8 =>
      let (v, er) := strtoumax a
      if er || v > UINT8_MAX then
        .fatal ("Error: Uint8 overflow for flag " ++ fl.name)
      else .ok (.vNat v)
    | .FLAG_UINT16 =>
      let (v, er) := strtoumax a
      if er || v > UINT16_MAX then
        .fatal ("Error: Uint16 overflow for flag " ++ fl.name)
      else .ok (.vNat v)
    | .FLAG_UINT32 =>
      let (v, er) := strtoumax a
      if er || v > UINT32_MAX then
        .fatal ("Error: Uint32 overflow for flag " ++ fl.name)
      else .ok (.vNat v)
    | .FLAG_UINT64 =>
      let (v, er) := strtoumax a
      if er || v > UINT64_MAX then
        .fatal ("Error: Uint64 overflow for flag " ++ fl.name)
      else .ok (.vNat v)
    | .FLAG_UINTPTR =>
      let (v, er) := strtoumax a
      if er || v > UINTPTR_MAX then
        .fatal ("Error: Uint64 overflow for flag " ++ fl.name)
      else .ok (.vNat v)
    | .FLAG_STRING => .ok (.vStr a)

/-! ### Phase 1: the global-flag scan -/

/-- Result of one `parse_flag_helper` call: the updated store, or an exit
with failure status (carrying the store at exit and the diagnostic), or
undefined behavior. -/
inductive StepRes where
  | ok (st : Store)
  | fatal (st : Store) (msg : String)
  | ub

/-- The `for (j = 0; j < num_flags; j++)` loop of `parse_flag_helper`.
The local `i` of the C function starts at the position of the flag token
and is incremented once per name match, so the value token of the `k`-th
match (counting from 0) is `rest.get? k`, where `rest` is the token list
after the flag token; `rest.get? k = none` corresponds to `i >= argc`
(`argv[i]` is the NULL terminator).  The `int* iptr` parameter is read
but never written back, so the caller's index is unchanged.  After a
successful conversion the value is stored through the flag's `value`
pointer and the optional validator is applied to the just-stored value;
a rejected value is a failure exit whose message uses the validator's
`error_message`, or `"Invalid value"` when that is NULL. -/
def helperGo (name : String) (rest : List String) :
    List flag → Nat → Store → StepRes
  | [], _, st => .ok st
  | fl :: fls, k, st =>
    if fl.name = name then
      match global_flag_convert fl (rest.get? k) with
      | .fatal m => .fatal st m
      | .ub => .ub
      | .ok v =>
        let st' := st.set fl.value v
        match fl.flag_validator with
        | none => helperGo name rest fls (k + 1) st'
        | some fv =>
          if fv.validator v then helperGo name rest fls (k + 1) st'
          else
            .fatal st' ("Error: Invalid value for flag " ++ fl.name ++ ": "
              ++ fv.error_message.getD "Invalid value")
    else helperGo name rest fls k st

/-- The C `parse_flag_helper(flags, num_flags, &i, argc, argv)` where `name` is
the stripped flag name at `argv[*iptr]` and `rest` is `argv[*iptr+1..]`. -/
def parse_flag_helper (flags : List flag) (name : String)
    (rest : List String) (st : Store) : StepRes :=
  helperGo name rest flags 0 st

/-- The test `argv[i][0] == '-'`. -/
def dashFirst (t : String) : Bool :=
  match t.data with
  | '-' :: _ => true
  | _ => false

/-- The expression `(argv[i][1] == '-') ? &argv[i][2] : &argv[i][1]`: strip one or two
leading dashes.  Only called on tokens whose first character is `'-'`. -/
def stripGlobal (t : String) : String :=
  match t.data with
  | '-' :: '-' :: rest => ⟨rest⟩
  | '-' :: rest => ⟨rest⟩
  | _ => t

/-- The C `find_subcommand`, returning the matching subcommand together with its
index in the registration list (first match wins). -/
def findSubGo : Nat → List subcommand → String → Option (Nat × subcommand)
  | _, [], _ => none
  | k, sc :: scs, t =>
    if sc.name = t then some (k, sc) else findSubGo (k + 1) scs t

/-- Wrapper matching the C call `find_subcommand(subcmds, num_commands, name)`. -/
def find_subcommand (subs : List subcommand) (t : String) :
    Option (Nat × subcommand) :=
  findSubGo 0 subs t

/-- Result of the phase-1 loop of `parse_flags`: no subcommand token was
found; a subcommand was found (store so far, subcommand index, the
subcommand, and the tokens after its name); the `help` success exit; a
failure exit; or undefined behavior. -/
inductive P1Res where
  | noSub (st : Store)
  | found (st : Store) (k : Nat) (sc : subcommand) (rest : List String)
  | helpExit (st : Store)
  | fatal (st : Store) (msg : String)
  | ub

/-- The `for (i = 1; i < argc; i++)` loop of `parse_flags` over
`argv[1..]`.  A dash token is checked against the reserved name `help`
(success exit) and then handed to `parse_flag_helper`; since the helper
never writes back its index, the loop advances one token per iteration
and value tokens are re-examined.  A non-dash token is looked up among
the subcommands: a match records the position and breaks out of phase 1
immediately; a non-match is skipped. -/
def phase1 (ctx : flag_ctx) : Store → List String → P1Res
  | st, [] => .noSub st
  | st, t :: rest =>
    if dashFirst t then
      if stripGlobal t = "help" then .helpExit st
      else
        match parse_flag_helper ctx.flags (stripGlobal t) rest st with
        | .fatal st' m => .fatal st' m
        | .ub => .ub
        | .ok st' => phase1 ctx st' rest
    else
      match find_subcommand ctx.subcommands t with
      | some (k, sc) => .found st k sc rest
      | none => phase1 ctx st rest

/-! ### Phase 2: the subcommand-flag scan -/

/-- The expression `argv[subcmdIndex][0] == '-' ? &argv[subcmdIndex][1] :
&argv[subcmdIndex][0]`: strip exactly one leading dash. -/
def stripSub (t : String) : String :=
  match t.data with
  | '-' :: rest => ⟨rest⟩
  | _ => t

/-- The inner `for (j = 0; ...)` lookup of the phase-2 loop: the first
subcommand flag whose name equals the stripped token, with its index. -/
def findSubFlagGo : Nat → List flag → String → Option (Nat × flag)
  | _, [], _ => none
  | j, fl :: fls, a =>
    if fl.name = a then some (j, fl) else findSubFlagGo (j + 1) fls a

/-- First matching subcommand flag for a stripped token. -/
def find_sub_flag (fls : List flag) (a : String) : Option (Nat × flag) :=
  findSubFlagGo 0 fls a

/-- Result of the phase-2 loop: the final store and the
`proccessed_flags` match record (`proccessed_flags[j].value != NULL` is
modelled as entry `j` of the `Bool` list, every embedded cell index being
non-NULL), or a failure exit, or undefined behavior. -/
inductive P2Res where
  | ok (st : Store) (matched : List Bool)
  | fatal (st : Store) (msg : String)
  | ub
deriving DecidableEq

/-- The `while (subcmdIndex < argc)` loop of `parse_flags`.  Each
iteration strips one dash from the current token, looks it up in the
subcommand's flag table, records a match in `proccessed_flags`, then
increments `subcmdIndex` exactly once; on a match the token at the new
index (`ts.head?`, the NULL terminator when absent) is converted by
`parse_subcommand_flag`.  The next iteration resumes at that value
token, so the scanner advances by one token per iteration.  (The C
loop's `if (arg == NULL)` guard is unreachable: `arg` points into the
current token, which exists, so it is omitted here.) -/
def phase2Go (sub : subcommand) : Store → List Bool → List String → P2Res
  | st, m, [] => .ok st m
  | st, m, t :: ts =>
    match find_sub_flag sub.flags (stripSub t) with
    | none => phase2Go sub st m ts
    | some (j, fl) =>
      let m' := m.set j true
      match parse_subcommand_flag fl ts.head? with
      | .fatal msg => .fatal st msg
      | .ub => .ub
      | .ok v => phase2Go sub (st.set fl.value v) m' ts

/-- The post-scan required check of `parse_flags`: the first flag (in
table order) that is required but was never matched during the phase-2
scan (`proccessed_flags[i].value == NULL`). -/
def firstMissingRequired : List flag → List Bool → Option flag
  | [], _ => none
  | fl :: fls, m =>
    if fl.required && !(m.headD false) then some fl
    else firstMissingRequired fls m.tail

/-- Result of `parse_flags`: a normal return (final store and the
selected subcommand with its index, or `none`), the `help` success exit,
a failure exit, or undefined behavior. -/
inductive ParseRes where
  | ret (st : Store) (sub : Option (Nat × subcommand))
  | helpExit (st : Store)
  | fatalExit (st : Store) (msg : String)
  | ub

/-- The C `parse_flags(ctx, argc, argv)`.  `argv` includes the program name, so
`argc = argv.length`; `argc < 2` returns NULL at once.  Otherwise phase 1
scans `argv[1..]`; when it finds a subcommand, phase 2 scans the
remaining tokens with a zeroed `proccessed_flags` record and the required
check runs on the record after the stream is exhausted. -/
def parse_flags (ctx : flag_ctx) (st : Store) (argv : List String) :
    ParseRes :=
  if argv.length < 2 then .ret st none
  else
    match phase1 ctx st (argv.drop 1) with
    | .noSub st' => .ret st' none
    | .helpExit st' => .helpExit st'
    | .fatal st' m => .fatalExit st' m
    | .ub => .ub
    | .found st' k sc rest =>
      match phase2Go sc st' (List.replicate sc.flags.length false) rest with
      | .fatal st'' m => .fatalExit st'' m
      | .ub => .ub
      | .ok st'' m =>
        match firstMissingRequired sc.flags m with
        | some fl =>
          .fatalExit st'' ("\n[ERROR]: Flag " ++ fl.name ++ " is required\n\n")
        | none => .ret st'' (some (k, sc))

/-- Modelled from the spec: the phase-2 scanner that claim C2 describes,
which "advances by two tokens (name + value) regardless of whether a
match was found, i.e. unmatched tokens are skipped in pairs".  It exists
only to be compared with `phase2Go`, the scanner of the source. -/
def phase2Paired (sub : subcommand) : Store → List Bool → List String → P2Res
  | st, m, [] => .ok st m
  | st, m, [t] =>
    match find_sub_flag sub.flags (stripSub t) with
    | none => .ok st m
    | some (j, fl) =>
      let m' := m.set j true
      match parse_subcommand_flag fl none with
      | .fatal msg => .fatal st msg
      | .ub => .ub
      | .ok v => .ok (st.set fl.value v) m'
  | st, m, t :: v :: ts =>
    match find_sub_flag sub.flags (stripSub t) with
    | none => phase2Paired sub st m ts
    | some (j, fl) =>
      let m' := m.set j true
      match parse_subcommand_flag fl (some v) with
      | .fatal msg => .fatal st msg
      | .ub => .ub
      | .ok v' => phase2Paired sub (st.set fl.value v') m' ts

/-! ### Concrete registrations used by counterexamples and witnesses

These mirror the registration calls of the repository's `main.c` example
(a global `int` flag with a 0–10 validator, a global `verbose` boolean,
a `greet` subcommand with a string flag `name`). -/

/-- A subcommand `greet` with one optional string flag `name` bound to
cell 0. -/
def greetSub : subcommand :=
  { name := "greet", description := "Greet a person",
    flags := [
      { name := "name", value := 0, type := .FLAG_STRING,
        description := "Name to greet", required := false,
        flag_validator := none }] }

/-- Context with no global flags and the single subcommand `greet`. -/
def ctxGreet : flag_ctx := { flags := [], subcommands := [greetSub] }

/-- A subcommand `greet` whose string flag `name` (cell 0) is required. -/
def greetReqSub : subcommand :=
  { name := "greet", description := "Greet a person",
    flags := [
      { name := "name", value := 0, type := .FLAG_STRING,
        description := "Name to greet", required := true,
        flag_validator := none }] }

/-- Context with no global flags and the single subcommand `greet`,
whose `name` flag is required. -/
def ctxGreetReq : flag_ctx := { flags := [], subcommands := [greetReqSub] }

/-- A subcommand `run` with one boolean flag `verbose` bound to cell 1. -/
def runSub : subcommand :=
  { name := "run", description := "Run it",
    flags := [
      { name := "verbose", value := 1, type := .FLAG_BOOL,
        description := "Verbose output", required := false,
        flag_validator := none }] }

/-- Context with a global boolean flag `verbose` (cell 0) and the
subcommand `run` (whose own `verbose` flag is bound to cell 1). -/
def ctxVerbose : flag_ctx :=
  { flags := [
      { name := "verbose", value := 0, type := .FLAG_BOOL,
        description := "Verbose output", required := false,
        flag_validator := none }],
    subcommands := [runSub] }

/-- Context with a single global `FLAG_INT` flag `int` bound to cell 0. -/
def ctxInt : flag_ctx :=
  { flags := [
      { name := "int", value := 0, type := .FLAG_INT,
        description := "An integer flag", required := false,
        flag_validator := none }],
    subcommands := [] }

/-- Context with global flags `int8` (cell 0, `FLAG_INT8`) and `int`
(cell 1, `FLAG_INT`). -/
def ctxInt8Int : flag_ctx :=
  { flags := [
      { name := "int8", value := 0, type := .FLAG_INT8,
        description := "An int8_t flag", required := false,
        flag_validator := none },
      { name := "int", value := 1, type := .FLAG_INT,
        description := "An integer flag", required := false,
        flag_validator := none }],
    subcommands := [] }

/-- The `validate_int` validator of `main.c`: the converted int must lie
in 0–10; configured message `"Must be between 0 and 10"`. -/
def vRange10 : flag_validator :=
  { validator := fun v =>
      match v with
      | .vInt n => decide (0 ≤ n ∧ n ≤ 10)
      | _ => false,
    error_message := some "Must be between 0 and 10" }

/-- The global `int` flag of `main.c` with the 0–10 validator attached. -/
def intFlagValidated : flag :=
  { name := "int", value := 0, type := .FLAG_INT,
    description := "An integer flag", required := false,
    flag_validator := some vRange10 }

/-- Context with the validated global `int` flag. -/
def ctxIntValidated : flag_ctx :=
  { flags := [intFlagValidated], subcommands := [] }

/-- A bare subcommand `greet` with no flags of its own. -/
def greetBareSub : subcommand :=
  { name := "greet", description := "Greet", flags := [] }

/-- Context with a global `int` flag (cell 0) and the bare subcommand
`greet`. -/
def ctxIntGreet : flag_ctx :=
  { flags := [
      { name := "int", value := 0, type := .FLAG_INT,
        description := "An integer flag", required := false,
        flag_validator := none }],
    subcommands := [greetBareSub] }

/-- A global boolean flag `verbose` bound to cell 0 (used alone). -/
def verboseFlag : flag :=
  { name := "verbose", value := 0, type := .FLAG_BOOL,
    description := "Verbose output", required := false,
    flag_validator := none }

/-! ## Theorems -/

/-- A `found` result's remaining token list is strictly shorter than the
scanned list (at least the subcommand token itself was consumed). -/
theorem phase1_found_length {ctx : flag_ctx} :
    ∀ (toks : List String) (st st' : Store) (k : Nat) (sc : subcommand)
      (rest : List String),
      phase1 ctx st toks = .found st' k sc rest → rest.length < toks.length := by
  intro toks
  induction toks with
  | nil => intro st st' k sc rest h; simp [phase1] at h
  | cons t ts ih =>
    intro st st' k sc rest h
    simp only [phase1] at h
    split at h
    · split at h
      · exact absurd h (by simp)
      · split at h
        · exact absurd h (by simp)
        · exact absurd h (by simp)
        · exact Nat.lt_trans (ih _ _ _ _ _ h) (Nat.lt_succ_self _)
    · split at h
      · rename_i k' sc' heq
        cases h
        exact Nat.lt_succ_self _
      · exact Nat.lt_trans (ih _ _ _ _ _ h) (Nat.lt_succ_self _)

/-- A flag table with no entry named `name` leaves the store untouched. -/
theorem helperGo_no_match (name : String) (rest : List String) :
    ∀ (fls : List flag) (k : Nat) (st : Store),
      (∀ fl ∈ fls, fl.name ≠ name) →
      helperGo name rest fls k st = .ok st := by
  intro fls
  induction fls with
  | nil => intro k st _; rfl
  | cons f fs ih =>
    intro k st h
    have hf : f.name ≠ name := h f (List.mem_cons_self f fs)
    simp only [helperGo, if_neg hf]
    exact ih k st (fun fl hm => h fl (List.mem_cons_of_mem f hm))

/-- With pairwise-distinct flag names (the data-model invariant), a
`parse_flag_helper` call reads at most the first token after the flag
name: its result is unchanged when the rest of the token stream is
replaced, provided the head token is the same. -/
theorem parse_flag_helper_head (name : String) :
    ∀ (fls : List flag), (fls.map flag.name).Nodup →
    ∀ (r1 r2 : List String), r1.head? = r2.head? →
    ∀ (st : Store),
      parse_flag_helper fls name r1 st = parse_flag_helper fls name r2 st := by
  intro fls
  unfold parse_flag_helper
  induction fls with
  | nil => intro _ r1 r2 _ st; rfl
  | cons f fs ih =>
    intro hnd r1 r2 hh st
    have hnd' : (fs.map flag.name).Nodup := (List.nodup_cons.mp hnd).2
    by_cases hf : f.name = name
    · have hget : r1.get? 0 = r2.get? 0 := by
        cases r1 <;> cases r2 <;> simp_all
      have hnomem : ∀ fl ∈ fs, fl.name ≠ name := by
        intro fl hm
        intro hc
        have : f.name ∈ fs.map flag.name := by
          rw [hf, ← hc]; exact List.mem_map_of_mem flag.name hm
        exact (List.nodup_cons.mp hnd).1 this
      simp only [helperGo, if_pos hf, hget]
      cases global_flag_convert f (r2.get? 0) with
      | fatal m => rfl
      | ub => rfl
      | ok v =>
        simp only
        cases f.flag_validator with
        | none =>
          rw [helperGo_no_match name r1 fs 1 _ hnomem,
              helperGo_no_match name r2 fs 1 _ hnomem]
        | some fv =>
          by_cases hv : fv.validator v
          · simp only [if_pos hv]
            rw [helperGo_no_match name r1 fs 1 _ hnomem,
                helperGo_no_match name r2 fs 1 _ hnomem]
          · simp only [if_neg hv]
    · simp only [helperGo, if_neg hf]
      exact ih hnd' r1 r2 hh st

/-- C1: once a phase-1 token is recognized as a registered subcommand
name, scanning stops there: the global store and the selected subcommand
are already fixed, and every token after the subcommand name can be
replaced arbitrarily without changing them — tokens after the subcommand
are never processed as global flags (they are handed whole to phase 2 by
`parse_flags`).  The hypothesis is the data-model invariant that global
flag names are unique. -/
theorem C1_phase1_stops_at_subcommand (ctx : flag_ctx)
    (hnd : (ctx.flags.map flag.name).Nodup) :
    ∀ (pre : List String) (st st' : Store) (k : Nat) (sc : subcommand)
      (rest rest' : List String),
      phase1 ctx st (pre ++ rest) = .found st' k sc rest →
      phase1 ctx st (pre ++ rest') = .found st' k sc rest' := by
  intro pre
  induction pre with
  | nil =>
    intro st st' k sc rest rest' h
    exact absurd (phase1_found_length _ _ _ _ _ _ h) (lt_irrefl _)
  | cons t pre ih =>
    intro st st' k sc rest rest' h
    simp only [List.cons_append, phase1, List.append_eq] at h ⊢
    by_cases hd : dashFirst t
    · simp only [if_pos hd] at h ⊢
      by_cases hh : stripGlobal t = "help"
      · simp [hh] at h
      · simp only [if_neg hh] at h ⊢
        cases pre with
        | nil =>
          simp only [List.nil_append] at h ⊢
          cases hres : parse_flag_helper ctx.flags (stripGlobal t) rest st with
          | fatal st2 m => simp [hres] at h
          | ub => simp [hres] at h
          | ok st2 =>
            simp only [hres] at h
            exact absurd (phase1_found_length _ _ _ _ _ _ h) (lt_irrefl _)
        | cons u pre2 =>
          simp only [List.cons_append] at h ⊢
          have hhe : parse_flag_helper ctx.flags (stripGlobal t)
                (u :: (pre2 ++ rest')) st
              = parse_flag_helper ctx.flags (stripGlobal t)
                (u :: (pre2 ++ rest)) st :=
            parse_flag_helper_head _ _ hnd _ _ (by simp) st
          rw [hhe]
          cases hres : parse_flag_helper ctx.flags (stripGlobal t)
              (u :: (pre2 ++ rest)) st with
          | fatal st2 m => rw [hres] at h; exact absurd h (by simp)
          | ub => rw [hres] at h; exact absurd h (by simp)
          | ok st2 =>
            rw [hres] at h
            exact ih st2 st' k sc rest rest' h
    · simp only [if_neg hd] at h ⊢
      cases hfs : find_subcommand ctx.subcommands t with
      | some p =>
        obtain ⟨k0, sc0⟩ := p
        simp only [hfs, P1Res.found.injEq] at h
        obtain ⟨hst, hk, hsc, hrest⟩ := h
        have hpre : pre = [] := by
          have hlen := congrArg List.length hrest
          simp only [List.length_append] at hlen
          have : pre.length = 0 := by omega
          exact List.eq_nil_of_length_eq_zero this
        subst hpre
        simp [hfs, hst, hk, hsc]
      | none =>
        simp only [hfs] at h ⊢
        exact ih st st' k sc rest rest' h

/-- Witness for C1: in `-int 5 greet X Y`, the tokens after `greet` can
be replaced (here by `-int 9`) without changing the phase-1 store
(cell 0 holds 5) or the selected subcommand. -/
theorem C1_witness :
    phase1 ctxIntGreet [Value.vInt 0]
        (["-int", "5", "greet"] ++ ["-int", "9"])
      = .found [Value.vInt 5] 0 greetBareSub ["-int", "9"] :=
  C1_phase1_stops_at_subcommand ctxIntGreet (by decide)
    ["-int", "5", "greet"] [Value.vInt 0] [Value.vInt 5] 0 greetBareSub
    ["--int", "7"] ["-int", "9"] rfl

/-- C2 counterexample: the claim says the phase-2 scanner skips unmatched
tokens in pairs (`phase2Paired`, written from the spec's words).  On
`greet`'s table and tokens `junk -name val`, the source scanner
(`phase2Go`) skips `junk` alone, matches `-name` and stores `val`, while
the pair-skipping scanner drops `junk` and `-name` together and stores
nothing — so the claim is false on this input. -/
theorem C2_counterexample :
    phase2Go greetSub [Value.vStr ""] [false] ["junk", "-name", "val"]
        = .ok [Value.vStr "val"] [true] ∧
    phase2Paired greetSub [Value.vStr ""] [false] ["junk", "-name", "val"]
        = .ok [Value.vStr ""] [false] ∧
    phase2Go greetSub [Value.vStr ""] [false] ["junk", "-name", "val"]
        ≠ phase2Paired greetSub [Value.vStr ""] [false] ["junk", "-name", "val"] :=
  ⟨rfl, rfl, by decide⟩

/-- C2 as amended: the phase-2 scanner advances by exactly one token per
iteration.  An unmatched token is skipped individually (state untouched),
and after a match the converted value token is not skipped: the next
iteration resumes at it (`ts`, whose head is the value), so it is
re-examined as a candidate flag name. -/
theorem C2_phase2_one_token_per_iteration (sub : subcommand) (st : Store)
    (m : List Bool) (t : String) (ts : List String) :
    (find_sub_flag sub.flags (stripSub t) = none →
      phase2Go sub st m (t :: ts) = phase2Go sub st m ts) ∧
    (∀ (j : Nat) (fl : flag) (v : Value),
      find_sub_flag sub.flags (stripSub t) = some (j, fl) →
      parse_subcommand_flag fl ts.head? = .ok v →
      phase2Go sub st m (t :: ts)
        = phase2Go sub (st.set fl.value v) (m.set j true) ts) := by
  constructor
  · intro h; simp [phase2Go, h]
  · intro j fl v hf hc; simp [phase2Go, hf, hc]

/-- Witness for C2: the unmatched token `junk` is skipped alone, and the
matched `-name` stores its value and continues at the value token. -/
theorem C2_witness :
    phase2Go greetSub [Value.vStr ""] [false] ["junk", "-name", "val"]
        = phase2Go greetSub [Value.vStr ""] [false] ["-name", "val"] ∧
    phase2Go greetSub [Value.vStr ""] [false] ["-name", "val"]
        = phase2Go greetSub [Value.vStr "val"] [true] ["val"] :=
  ⟨(C2_phase2_one_token_per_iteration greetSub [Value.vStr ""] [false]
      "junk" ["-name", "val"]).1 rfl,
   (C2_phase2_one_token_per_iteration greetSub [Value.vStr ""] [false]
      "-name" ["val"]).2 0
      { name := "name", value := 0, type := .FLAG_STRING,
        description := "Name to greet", required := false,
        flag_validator := none }
      (.vStr "val") rfl rfl⟩

/-- C3 counterexample: the claim says a non-boolean token yields `true`
in the global context and is a hard error in the subcommand context; the
code does the opposite.  `-verbose maybe` before any subcommand is a
failure exit, while `run -verbose maybe` sets the subcommand's cell to
true and returns normally. -/
theorem C3_counterexample :
    parse_flags ctxVerbose [Value.vBool false, Value.vBool false]
        ["prog", "-verbose", "maybe"]
      = .fatalExit [Value.vBool false, Value.vBool false]
          "Error: Invalid boolean value for flag verbose" ∧
    parse_flags ctxVerbose [Value.vBool false, Value.vBool false]
        ["prog", "run", "-verbose", "maybe"]
      = .ret [Value.vBool false, Value.vBool true] (some (0, runSub)) :=
  ⟨rfl, rfl⟩

/-- C3 as amended: for a boolean flag, `"true"`/`"false"` tokens
(case-insensitive) set the cell accordingly in both contexts; in the
global (phase-1) context a missing following token yields `true` but any
other token is a fatal parse error; in the subcommand (phase-2) context
any other token yields `true`. -/
theorem C3_bool_semantics (fl : flag) (ht : fl.type = .FLAG_BOOL) :
    (global_flag_convert fl none = .ok (.vBool true)) ∧
    (∀ t : String, strcaseEq t "true" = true →
      global_flag_convert fl (some t) = .ok (.vBool true)) ∧
    (∀ t : String, strcaseEq t "true" = false → strcaseEq t "false" = true →
      global_flag_convert fl (some t) = .ok (.vBool false)) ∧
    (∀ t : String, strcaseEq t "true" = false → strcaseEq t "false" = false →
      global_flag_convert fl (some t)
        = .fatal ("Error: Invalid boolean value for flag " ++ fl.name)) ∧
    (∀ t : String, strcaseEq t "true" = true →
      parse_subcommand_flag fl (some t) = .ok (.vBool true)) ∧
    (∀ t : String, strcaseEq t "true" = false → strcaseEq t "false" = true →
      parse_subcommand_flag fl (some t) = .ok (.vBool false)) ∧
    (∀ t : String, strcaseEq t "true" = false → strcaseEq t "false" = false →
      parse_subcommand_flag fl (some t) = .ok (.vBool true)) := by
  refine ⟨?_, ?_, ?_, ?_, ?_, ?_, ?_⟩ <;>
    simp_all [global_flag_convert, parse_subcommand_flag, ht]

/-- Witness for C3: at the concrete boolean flag `verbose` and the tokens
`FALSE` and `maybe`, the amended semantics evaluate as stated. -/
theorem C3_witness :
    global_flag_convert verboseFlag (some "FALSE") = .ok (.vBool false) ∧
    global_flag_convert verboseFlag (some "maybe")
      = .fatal "Error: Invalid boolean value for flag verbose" ∧
    parse_subcommand_flag verboseFlag (some "maybe") = .ok (.vBool true) :=
  ⟨(C3_bool_semantics verboseFlag rfl).2.2.1 "FALSE" rfl rfl,
   (C3_bool_semantics verboseFlag rfl).2.2.2.1 "maybe" rfl rfl,
   (C3_bool_semantics verboseFlag rfl).2.2.2.2.2.2 "maybe" rfl rfl⟩

/-- C4 counterexample: the claim says `-name` and `--name` are
interchangeable anywhere in argv.  After the subcommand `greet`, the
spelling `-name World` stores `"World"` in the bound cell, while
`--name World` leaves the cell untouched (phase 2 strips only one dash,
so the stripped candidate `-name` matches no flag): the two parses have
different cell assignments. -/
theorem C4_counterexample :
    parse_flags ctxGreet [Value.vStr ""] ["prog", "greet", "-name", "World"]
      = .ret [Value.vStr "World"] (some (0, greetSub)) ∧
    parse_flags ctxGreet [Value.vStr ""] ["prog", "greet", "--name", "World"]
      = .ret [Value.vStr ""] (some (0, greetSub)) ∧
    ([Value.vStr "World"] : Store) ≠ [Value.vStr ""] :=
  ⟨rfl, rfl, by decide⟩

/-- C4 as amended: the two spellings are interchangeable for phase-1
(global-flag) tokens: a head token `-s` is processed exactly like `--s`
whenever `s` itself does not begin with a dash.  (In phase 2 exactly one
dash is stripped, so only the single-dash spelling matches — see the
counterexample.) -/
theorem C4_dash_equiv (ctx : flag_ctx) (st : Store) (s : String)
    (rest : List String) (hs : dashFirst s = false) :
    phase1 ctx st (⟨'-' :: s.data⟩ :: rest)
      = phase1 ctx st (⟨'-' :: '-' :: s.data⟩ :: rest) := by
  have h1 : dashFirst ⟨'-' :: s.data⟩ = true := rfl
  have h2 : dashFirst ⟨'-' :: '-' :: s.data⟩ = true := rfl
  have hstrip1 : stripGlobal ⟨'-' :: s.data⟩ = s := by
    unfold stripGlobal
    split
    · rename_i rest' heq
      injection heq with _ h2'
      rw [dashFirst] at hs
      rw [h2'] at hs
      simp at hs
    · rename_i rest' heq
      injection heq with _ h2'
      rw [← h2']
    · rename_i hcon1 hcon2
      exact absurd rfl (hcon2 s.data)
  have hstrip2 : stripGlobal ⟨'-' :: '-' :: s.data⟩ = s := rfl
  simp only [phase1, h1, h2, if_true, hstrip1, hstrip2]

/-- Witness for C4: with the global flag `int`, the head tokens `-int`
and `--int` give identical phase-1 results. -/
theorem C4_witness :
    phase1 ctxInt [Value.vInt 0] (⟨'-' :: "int".data⟩ :: ["5"])
      = phase1 ctxInt [Value.vInt 0] (⟨'-' :: '-' :: "int".data⟩ :: ["5"]) :=
  C4_dash_equiv ctxInt [Value.vInt 0] "int" ["5"] rfl

/-- C5: evaluation at the failing input.  `-int8 127` stores 127 and
`-int8 128` is a fatal range error, as the claim states; but for the
native-int kind the claim fails: `-int 5000000000` is accepted without
any diagnostic and the bound cell receives the value truncated to 32
bits (705032704), because `strtol` only reports overflow of `long` and
the result is cast to `int` unchecked. -/
theorem C5_int_width_overflow_not_fatal :
    parse_flags ctxInt8Int [Value.vInt 0, Value.vInt 0]
        ["prog", "-int8", "127"]
      = .ret [Value.vInt 127, Value.vInt 0] none ∧
    parse_flags ctxInt8Int [Value.vInt 0, Value.vInt 0]
        ["prog", "-int8", "128"]
      = .fatalExit [Value.vInt 0, Value.vInt 0]
          "Error: Int8 overflow or underflow for flag int8" ∧
    parse_flags ctxInt8Int [Value.vInt 0, Value.vInt 0]
        ["prog", "-int", "5000000000"]
      = .ret [Value.vInt 0, Value.vInt 705032704] none :=
  ⟨rfl, rfl, rfl⟩

/-- The post-scan required check succeeds exactly when every required
descriptor of the table was visited during the scan. -/
theorem firstMissingRequired_none_iff :
    ∀ (fls : List flag) (m : List Bool),
      firstMissingRequired fls m = none ↔
        (∀ (j : Nat) (fl : flag), fls.get? j = some fl →
          fl.required = true → m.getD j false = true) := by
  intro fls
  induction fls with
  | nil => intro m; simp [firstMissingRequired]
  | cons f fs ih =>
    intro m
    have hh0 : m.getD 0 false = m.headD false := by cases m <;> rfl
    have hht : ∀ j : Nat, m.getD (j + 1) false = m.tail.getD j false := by
      intro j; cases m <;> rfl
    simp only [firstMissingRequired]
    cases hr : f.required with
    | true =>
      cases hm : m.headD false with
      | false =>
        simp only [hr, hm, Bool.not_false, Bool.and_self, if_true]
        constructor
        · intro h; exact absurd h (by simp)
        · intro h
          have h0 := h 0 f rfl hr
          rw [hh0, hm] at h0
          exact absurd h0 (by simp)
      | true =>
        simp only [hr, hm, Bool.not_true, Bool.and_false, Bool.false_eq_true,
          if_false]
        rw [ih m.tail]
        constructor
        · intro h j fl hj hreq
          cases j with
          | zero =>
            simp only [List.get?] at hj
            cases hj
            rw [hh0, hm]
          | succ j' =>
            rw [hht j']
            exact h j' fl (by simpa using hj) hreq
        · intro h j fl hj hreq
          rw [← hht j]
          exact h (j + 1) fl (by simpa using hj) hreq
    | false =>
      simp only [hr, Bool.false_and, Bool.false_eq_true, if_false]
      rw [ih m.tail]
      constructor
      · intro h j fl hj hreq
        cases j with
        | zero =>
          simp only [List.get?] at hj
          cases hj
          exact absurd hreq (by simp [hr])
        | succ j' =>
          rw [hht j']
          exact h j' fl (by simpa using hj) hreq
      · intro h j fl hj hreq
        rw [← hht j]
        exact h (j + 1) fl (by simpa using hj) hreq

/-- C6: when phase 1 has selected a subcommand and the phase-2 scan runs
to the end of the token stream without a fatal conversion, the
required-flag check is what decides the outcome: the parse fails — with a
message naming the first required descriptor that was never matched —
only at this point, after the entire stream was consumed; and it returns
the subcommand exactly when every required descriptor was matched
(second conjunct). -/
theorem C6_required_after_scan (ctx : flag_ctx) (st : Store)
    (argv : List String) (st1 : Store) (k : Nat) (sc : subcommand)
    (rest : List String) (st2 : Store) (m : List Bool)
    (hlen : 2 ≤ argv.length)
    (h1 : phase1 ctx st (argv.drop 1) = .found st1 k sc rest)
    (h2 : phase2Go sc st1 (List.replicate sc.flags.length false) rest
        = .ok st2 m) :
    parse_flags ctx st argv =
      (match firstMissingRequired sc.flags m with
       | some fl =>
         .fatalExit st2 ("\n[ERROR]: Flag " ++ fl.name ++ " is required\n\n")
       | none => .ret st2 (some (k, sc))) ∧
    (firstMissingRequired sc.flags m = none ↔
      (∀ (j : Nat) (fl : flag), sc.flags.get? j = some fl →
        fl.required = true → m.getD j false = true)) := by
  constructor
  · have hnl : ¬(argv.length < 2) := by omega
    simp only [parse_flags, if_neg hnl, h1, h2]
  · exact firstMissingRequired_none_iff sc.flags m

/-- Witness for C6: `prog greet` omits the required flag `name` and fails
with the message naming it; the required check on the empty scan record
reports `name` as missing. -/
theorem C6_witness :
    parse_flags ctxGreetReq [Value.vStr ""] ["prog", "greet"]
      = .fatalExit [Value.vStr ""] "\n[ERROR]: Flag name is required\n\n" :=
  (C6_required_after_scan ctxGreetReq [Value.vStr ""] ["prog", "greet"]
    [Value.vStr ""] 0 greetReqSub [] [Value.vStr ""] [false]
    (by decide) rfl rfl).1

/-- C7: inside the phase-1 helper, when the flag at the head of the table
matches and its conversion succeeds, the converted value is stored and
the validator (when present) is applied to it immediately: if it accepts,
scanning continues with the value stored; if it rejects, the result is a
failure exit whose diagnostic carries the validator's configured
`error_message`, or the generic `"Invalid value"` when none was
supplied. -/
theorem C7_validator_inline (fl : flag) (fls : List flag) (name : String)
    (rest : List String) (k : Nat) (st : Store) (v : Value)
    (hname : fl.name = name)
    (hcv : global_flag_convert fl (rest.get? k) = .ok v) :
    helperGo name rest (fl :: fls) k st =
      (match fl.flag_validator with
       | none => helperGo name rest fls (k + 1) (st.set fl.value v)
       | some fv =>
         if fv.validator v then
           helperGo name rest fls (k + 1) (st.set fl.value v)
         else
           .fatal (st.set fl.value v)
             ("Error: Invalid value for flag " ++ fl.name ++ ": "
               ++ fv.error_message.getD "Invalid value")) := by
  simp only [helperGo, if_pos hname, hcv]

/-- Witness for C7: the 0–10 validator of the global `int` flag rejects
the converted value 99 — the parse is a failure exit whose message
carries the configured text, and the cell had already received 99 —
while 7 is accepted and stored. -/
theorem C7_witness :
    helperGo "int" ["99"] [intFlagValidated] 0 [Value.vInt 0]
      = .fatal [Value.vInt 99]
          "Error: Invalid value for flag int: Must be between 0 and 10" ∧
    helperGo "int" ["7"] [intFlagValidated] 0 [Value.vInt 0]
      = .ok [Value.vInt 7] := by
  constructor
  · have h := C7_validator_inline intFlagValidated [] "int" ["99"] 0
      [Value.vInt 0] (.vInt 99) rfl rfl
    rw [h]
    rfl
  · have h := C7_validator_inline intFlagValidated [] "int" ["7"] 0
      [Value.vInt 0] (.vInt 7) rfl rfl
    rw [h]
    rfl

/-- C8 counterexample: the claim says an argv containing a phase-1
`-help` token exits successfully with no other side effect, no bound cell
being modified.  On `prog -int 5 -help` the parse does exit successfully
at `-help`, but cell 0 was already set to 5 by the preceding global flag:
the final store differs from the initial one. -/
theorem C8_counterexample :
    parse_flags ctxInt [Value.vInt 0] ["prog", "-int", "5", "-help"]
      = .helpExit [Value.vInt 5] ∧
    ([Value.vInt 5] : Store) ≠ [Value.vInt 0] :=
  ⟨rfl, by decide⟩

/-- C8 as amended: at the first phase-1 token whose stripped name is
`help`, `parse_flags` terminates with success status immediately: no
following token is processed and the store is exactly the one already
built from the global flags preceding the help token (which may differ
from the initial store — see the counterexample). -/
theorem C8_help_exit (ctx : flag_ctx) (st : Store) (t : String)
    (rest : List String) (hd : dashFirst t = true)
    (hh : stripGlobal t = "help") :
    phase1 ctx st (t :: rest) = .helpExit st := by
  simp [phase1, hd, hh]

/-- Witness for C8: both `-help` and `--help` at the current phase-1
position exit successfully at once, with the current store and without
touching the remaining tokens. -/
theorem C8_witness :
    phase1 ctxInt [Value.vInt 5] ("-help" :: ["-int", "9"])
      = .helpExit [Value.vInt 5] ∧
    phase1 ctxInt [Value.vInt 5] ("--help" :: ["-int", "9"])
      = .helpExit [Value.vInt 5] :=
  ⟨C8_help_exit ctxInt [Value.vInt 5] "-help" ["-int", "9"] rfl rfl,
   C8_help_exit ctxInt [Value.vInt 5] "--help" ["-int", "9"] rfl rfl⟩

/-- C9: evaluation at the failing input.  In `prog greet -name` the
matched subcommand flag `name` is the final element of argv, so the
value consumed for conversion is `argv[argc]` — the NULL terminator —
and the conversion dereferences it: the parse is undefined behavior, not
an in-bounds read.  (The loop's `arg == NULL` guard tests the current
token pointer, which is never NULL, so the intended missing-value exit
is unreachable.) -/
theorem C9_oob_value_read :
    parse_flags ctxGreet [Value.vStr ""] ["prog", "greet", "-name"]
      = .ub :=
  rfl

/-- C10: with `argc < 2` the parse returns no subcommand at once: the
returned store is the caller's store unchanged (no bound cell is
written), and the context — a read-only argument of the embedding, as
`parse_flags` never mutates the tables — is untouched. -/
theorem C10_argc_lt_two_noop (ctx : flag_ctx) (st : Store)
    (argv : List String) (h : argv.length < 2) :
    parse_flags ctx st argv = .ret st none := by
  simp [parse_flags, h]

/-- Witness for C10: a bare program name returns no subcommand and the
store is unchanged. -/
theorem C10_witness :
    parse_flags ctxInt [Value.vInt 42] ["prog"] = .ret [Value.vInt 42] none :=
  C10_argc_lt_two_noop ctxInt [Value.vInt 42] ["prog"] (by decide)

end FlagLib
